import Mathlib

/-!
Verification of the ClipCraft frontend core against its specification.

The development shallowly embeds the relevant TypeScript functions of
`frontend/src/components/VideoPreview.tsx` and `frontend/src/App.tsx`
into Lean. JavaScript numbers are modelled as exact rationals (`ℚ`);
JavaScript truthiness tests on numbers and strings are modelled
explicitly (`jsOrNum`, `jsOrStr`): `0`, `""`, `undefined` are falsy. `undefined`/optional values are modelled with `Option`.
Asynchronous remote calls are modelled by passing the outcome of each
request (success payload / failure) as an explicit argument to the
function under study, so every embedded operation is a pure function of
its inputs and of the network outcomes it observes.
-/

/-- Model of the TS interface `ClipData.ai_analysis` block
(`VideoPreview.tsx`): each score is optional. -/
structure AiAnalysis where
  motion_score : Option ℚ
  visual_score : Option ℚ
  overall_score : Option ℚ
deriving DecidableEq

/-- Model of the TS interface `ClipData` (`VideoPreview.tsx`). -/
structure ClipData where
  clip_id : String
  title : String
  start_time : ℚ
  end_time : ℚ
  duration : ℚ
  confidence : ℚ
  type : String
  ai_analysis : Option AiAnalysis
deriving DecidableEq

/-- JavaScript `x || d` for an optional number `x`: the default is taken
when `x` is `undefined` or when `x` is the (falsy) number `0`. -/
def jsOrNum (x : Option ℚ) (d : ℚ) : ℚ :=
  match x with
  | none => d
  | some v => if v = 0 then d else v

/-- The motion score reached through optional chaining,
`clip.ai_analysis?.motion_score`. -/
def motionScoreOf (c : ClipData) : Option ℚ :=
  c.ai_analysis.bind (fun a => a.motion_score)

/-- The visual score reached through optional chaining,
`clip.ai_analysis?.visual_score`. -/
def visualScoreOf (c : ClipData) : Option ℚ :=
  c.ai_analysis.bind (fun a => a.visual_score)

/-- Embedding of `getViralPotential` (`VideoPreview.tsx`, lines 98-102
and 262): base confidence plus motion, visual and type bonuses, capped
at `1.0`. The source uses `||` (not `??`), hence `jsOrNum`. -/
def getViralPotential (clip : ClipData) : ℚ :=
  let baseScore := clip.confidence
  let motionBonus := (jsOrNum (motionScoreOf clip) 0.5) * 0.3
  let visualBonus := (jsOrNum (visualScoreOf clip) 0.5) * 0.2
  let typeBonus : ℚ := if clip.type = "High Action" then 0.2 else 0.1
  min 1.0 (baseScore + motionBonus + visualBonus + typeBonus)

/-- The scoring formula exactly as claim C1 words it: a supplied motion
or visual score of `0` contributes `0`, the default `0.5` is used only
when the score is absent (`??` semantics). Stated from the claim, to be
compared with `getViralPotential`. -/
def viralPotentialClaimed (clip : ClipData) : ℚ :=
  min 1.0 (clip.confidence
    + (Option.getD (motionScoreOf clip) 0.5) * 0.3
    + (Option.getD (visualScoreOf clip) 0.5) * 0.2
    + (if clip.type = "High Action" then (0.2 : ℚ) else 0.1))

/-- The motion term as the amended claim words it: `0.3` times the
motion score when the analysis block supplies a nonzero one, and
`0.3 * 0.5` when it is absent or supplied as `0`. -/
def motionTermAmended (c : ClipData) : ℚ :=
  match motionScoreOf c with
  | none => 0.5 * 0.3
  | some m => if m = 0 then 0.5 * 0.3 else m * 0.3

/-- The visual term as the amended claim words it: `0.2` times the
visual score when supplied nonzero, `0.2 * 0.5` when absent or `0`. -/
def visualTermAmended (c : ClipData) : ℚ :=
  match visualScoreOf c with
  | none => 0.5 * 0.2
  | some v => if v = 0 then 0.5 * 0.2 else v * 0.2

/-- The type term: `0.2` for category "High Action", `0.1` otherwise. -/
def typeTermOf (c : ClipData) : ℚ :=
  if c.type = "High Action" then 0.2 else 0.1

/-- A concrete clip whose analysis block supplies a motion score of `0`:
the code's `||` default kicks in where claim C1 says the supplied `0`
should be used. -/
def clipZeroMotion : ClipData :=
  { clip_id := "clip_1", title := "Opening", start_time := 0, end_time := 30,
    duration := 30, confidence := 0.4, type := "Balanced",
    ai_analysis := some { motion_score := some 0, visual_score := some 0.5,
                          overall_score := none } }

/-- A concrete clip with nonzero supplied scores, where `||` and `??`
agree. -/
def clipNonzeroScores : ClipData :=
  { clip_id := "clip_2", title := "Peak", start_time := 60, end_time := 90,
    duration := 30, confidence := 0.9, type := "High Action",
    ai_analysis := some { motion_score := some 0.8, visual_score := some 0.7,
                          overall_score := none } }

/-- The boundary clip of claim C5: confidence 1, motion 1, visual 1,
category "High Action". -/
def clipBoundary : ClipData :=
  { clip_id := "clip_b", title := "Boundary", start_time := 10, end_time := 40,
    duration := 30, confidence := 1, type := "High Action",
    ai_analysis := some { motion_score := some 1, visual_score := some 1,
                          overall_score := none } }

/-- Embedding of `getYouTubeLink` (`VideoPreview.tsx`, lines 73-77):
with no video id the original URL is returned; otherwise the base watch
URL, plus a `&t=<floor(startTime)>s` suffix when `startTime` is truthy
(present and nonzero — the source guards with `startTime ?`, so a start
time of `0` is treated like an absent one). -/
def getYouTubeLink (videoId : Option String) (youtubeUrl : String)
    (startTime : Option ℚ) : String :=
  match videoId with
  | none => youtubeUrl
  | some vid =>
    let baseUrl := "https://www.youtube.com/watch?v=" ++ vid
    match startTime with
    | none => baseUrl
    | some st => if st = 0 then baseUrl else baseUrl ++ "&t=" ++ toString (Rat.floor st) ++ "s"

/-- JavaScript `Math.trunc`-style truncation toward zero, as performed
by the `%` operator on numbers. -/
def jsTrunc (q : ℚ) : ℤ :=
  if q < 0 then -(Rat.floor (-q)) else Rat.floor q

/-- JavaScript `a % b` on numbers: `a - b * trunc(a / b)`. -/
def jsRem (a b : ℚ) : ℚ :=
  a - b * (jsTrunc (a / b) : ℚ)

/-- JavaScript `s.padStart(2, '0')`. -/
def padTwo (s : String) : String :=
  String.mk (List.replicate (2 - s.length) '0') ++ s

/-- Embedding of `formatTime` (`VideoPreview.tsx`, lines 52-56):
`Math.floor(seconds / 60)` minutes, `Math.floor(seconds % 60)` seconds
padded to two digits. -/
def formatTime (seconds : ℚ) : String :=
  let mins := Rat.floor (seconds / 60)
  let secs := Rat.floor (jsRem seconds 60)
  toString mins ++ ":" ++ padTwo (toString secs)

/-- One entry of the locally formatted fallback timestamp block built in
the `catch` branch of `copyTimestamps` (`VideoPreview.tsx`,
lines 242-247): numbered title, start-end times, canonical link. -/
def fallbackEntry (videoId : Option String) (youtubeUrl : String)
    (idx : Nat) (c : ClipData) : String :=
  toString (idx + 1) ++ ". " ++ c.title
    ++ "\n   ⏰ " ++ formatTime c.start_time ++ " - " ++ formatTime c.end_time
    ++ "\n   🔗 " ++ getYouTubeLink videoId youtubeUrl (some c.start_time) ++ "\n"

/-- The full locally formatted fallback text: one entry per clip, joined
with a newline. -/
def fallbackText (videoId : Option String) (youtubeUrl : String)
    (clips : List ClipData) : String :=
  String.intercalate "\n" ((clips.enum).map (fun p => fallbackEntry videoId youtubeUrl p.1 p.2))

/-- JavaScript `s.slice(0, n)`, modelled on code points (JS counts
UTF-16 units; the counterexample below holds under either counting). -/
def jsSlice0 (s : String) (n : Nat) : String :=
  String.mk (s.data.take n)

/-- Outcome of the remote `copy-timestamps` request: a transport/JSON
failure, or a parsed body with its `success` flag, text and count. -/
inductive FmtResp where
  | transportFail : FmtResp
  | body (success : Bool) (timestamp_text : String) (total_clips : Nat) : FmtResp

/-- What `copyTimestamps` surfaces to the caller at the end. -/
inductive CopySurface where
  | noVideo : CopySurface
  | copiedRemote (text : String) (total : Nat) : CopySurface
  | copiedFallback (text : String) : CopySurface
  | manual (text : String) : CopySurface
deriving DecidableEq

/-- Observable result of one `copyTimestamps` run: the texts passed to
`navigator.clipboard.writeText` (in order, whether or not the write
succeeded) and the final user-visible outcome. -/
structure CopyRun where
  clipboardAttempts : List String
  surfaced : CopySurface
deriving DecidableEq

/-- The `catch` branch of `copyTimestamps` (`VideoPreview.tsx`,
lines 238-256): build the fallback text, attempt the clipboard write;
if that write also fails, alert with only the first 200 characters of
the fallback followed by an ellipsis. -/
def copyFallbackFlow (videoId : Option String) (youtubeUrl : String)
    (clips : List ClipData) (fallbackWriteOk : Bool) : CopyRun :=
  let fb := fallbackText videoId youtubeUrl clips
  if fallbackWriteOk then ⟨[fb], .copiedFallback fb⟩
  else ⟨[fb], .manual ("❌ Copy failed. Please copy manually:\n\n" ++ jsSlice0 fb 200 ++ "...")⟩

/-- Embedding of the enhanced `copyTimestamps` (`VideoPreview.tsx`,
lines 207-260). `resp` is the outcome of the remote formatting request;
`remoteWriteOk` / `fallbackWriteOk` are the outcomes of the (up to two)
clipboard writes. An unsuccessful body throws and joins the transport
failure in the `catch` branch; a failing clipboard write of the remote
text likewise falls into `catch`. -/
def copyTimestampsRun (videoId : Option String) (youtubeUrl : String)
    (clips : List ClipData) (resp : FmtResp)
    (remoteWriteOk fallbackWriteOk : Bool) : CopyRun :=
  match videoId with
  | none => ⟨[], .noVideo⟩
  | some _ =>
    match resp with
    | .body true text total =>
      if remoteWriteOk then ⟨[text], .copiedRemote text total⟩
      else
        let r := copyFallbackFlow videoId youtubeUrl clips fallbackWriteOk
        ⟨text :: r.clipboardAttempts, r.surfaced⟩
    | .body false _ _ => copyFallbackFlow videoId youtubeUrl clips fallbackWriteOk
    | .transportFail => copyFallbackFlow videoId youtubeUrl clips fallbackWriteOk

/-- Concrete inputs for the C3 counterexample: a known video id. -/
def cexVideoId : Option String := some "dQw4w9WgXcQ"

/-- Three clips whose fallback timestamp block is longer than 200
characters. -/
def cexClips : List ClipData :=
  [ { clip_id := "c1", title := "Grand opening sequence", start_time := 90,
      end_time := 120, duration := 30, confidence := 0.8, type := "High Action",
      ai_analysis := none },
    { clip_id := "c2", title := "Mid-video turning point", start_time := 150,
      end_time := 195, duration := 45, confidence := 0.7, type := "Balanced",
      ai_analysis := none },
    { clip_id := "c3", title := "Closing remarks and outro", start_time := 225,
      end_time := 260, duration := 35, confidence := 0.6, type := "Steady",
      ai_analysis := none } ]


/-- Outcome of the `download-batch` request (`downloadAllClips`): a
transport/JSON failure, or a parsed body with `success`, the per-clip
links, the reported total and the download tips. -/
inductive BatchResp where
  | transportFail : BatchResp
  | body (success : Bool) (clipUrls : List String) (total_clips : Nat)
      (download_tips : List String) : BatchResp

/-- Observable result of one `downloadAllClips` run: whether the
request was issued, which links were scheduled to open (with their
stagger delay in milliseconds), and which alerts fired. -/
structure BatchRun where
  requested : Bool
  opened : List (Nat × String)
  batchErrorAlerts : Nat
  guardAlert : Bool
  successAlert : Bool
deriving DecidableEq

/-- Embedding of `downloadAllClips` (`VideoPreview.tsx`, lines 158-204):
guard on missing video id or empty clip set; on a successful body open
every returned link with an `index * 1000` ms stagger; on a transport
failure or an unsuccessful body, throw into `catch` — one batch-level
error alert and no opens. -/
def downloadAllClipsRun (videoId : Option String) (clips : List ClipData)
    (resp : BatchResp) : BatchRun :=
  if videoId.isNone || clips.isEmpty then
    { requested := false, opened := [], batchErrorAlerts := 0,
      guardAlert := true, successAlert := false }
  else
    match resp with
    | .transportFail =>
      { requested := true, opened := [], batchErrorAlerts := 1,
        guardAlert := false, successAlert := false }
    | .body false _ _ _ =>
      { requested := true, opened := [], batchErrorAlerts := 1,
        guardAlert := false, successAlert := false }
    | .body true urls _ _ =>
      { requested := true, opened := (urls.enum).map (fun p => (p.1 * 1000, p.2)),
        batchErrorAlerts := 0, guardAlert := false, successAlert := true }

/-- JavaScript regex `\w` extended with the `-` of the classes
`[\w-]+` used by the URL patterns. -/
def wordDashChar (c : Char) : Bool :=
  c.isAlphanum || c = '_' || c = '-'

/-- Match a literal pattern against the head of a character list,
returning the remainder on success. -/
def litMatch : List Char → List Char → Option (List Char)
  | [], rest => some rest
  | _ :: _, [] => none
  | p :: ps, c :: cs => if p = c then litMatch ps cs else none

/-- An optional literal group `(pat)?`: consume `pat` when it is
present, else leave the input unchanged. Faithful to the source
patterns because each optional group (`www.`, `m.`, `s`) starts with a
character that cannot also start the required continuation. -/
def optMatch (pat : List Char) (s : List Char) : List Char :=
  match litMatch pat s with
  | some r => r
  | none => s

/-- `[\w-]+`: at least one word character at the head. -/
def headWordChar (s : List Char) : Bool :=
  match s with
  | [] => false
  | c :: _ => wordDashChar c

/-- After the scheme, match an optional subdomain, a literal host/path,
and at least one id character. -/
def matchHostTail (rest : List Char) (sub path : String) : Bool :=
  match litMatch path.data (optMatch sub.data rest) with
  | some r => headWordChar r
  | none => false

/-- Embedding of `isValidYouTubeUrl` (`App.tsx`, lines 125-132): the
URL is accepted when it matches one of the three anchored patterns
`https?://(www.)?youtube.com/watch?v=[\w-]+`,
`https?://(www.)?youtu.be/[\w-]+`,
`https?://(m.)?youtube.com/watch?v=[\w-]+`. -/
def isValidYouTubeUrl (url : String) : Bool :=
  match litMatch "http".data url.data with
  | none => false
  | some r0 =>
    match litMatch "://".data (optMatch "s".data r0) with
    | none => false
    | some rest =>
      matchHostTail rest "www." "youtube.com/watch?v=" ||
      matchHostTail rest "www." "youtu.be/" ||
      matchHostTail rest "m." "youtube.com/watch?v="

/-- JavaScript `x || d` for an optional string `x`: the default is
taken when `x` is `undefined` or the (falsy) empty string. -/
def jsOrStr (x : Option String) (d : String) : String :=
  match x with
  | none => d
  | some s => if s = "" then d else s

/-- JavaScript `s.trim()` (whitespace stripped from both ends; modelled
with `Char.isWhitespace`). -/
def jsTrim (s : String) : String :=
  String.mk (((s.data.dropWhile Char.isWhitespace).reverse.dropWhile Char.isWhitespace).reverse)

/-- Model of the job-status JSON consumed by the poll loop
(`App.tsx`). -/
structure JobStatusV where
  job_id : String
  status : String
  progress : ℤ
  current_step : String
  error_message : Option String
  estimated_remaining : Option ℚ
  ai_features_enabled : Option (List String)
deriving DecidableEq

/-- The completed-job result payload stored by `setResult`; the
controller stores it opaquely, so only the clip list is modelled. -/
structure ResultPayload where
  clips : List ClipData
deriving DecidableEq

/-- The React state of `App` that the job lifecycle reads and writes
(`App.tsx`, lines 10-16). -/
structure AppState where
  youtubeUrl : String
  isProcessing : Bool
  jobId : String
  jobStatus : Option JobStatusV
  result : Option ResultPayload
  error : String
  isConnected : Option Bool
deriving DecidableEq

/-- Outcome of the `process-video` submission request. -/
inductive SubmitResp where
  | transportFail : SubmitResp
  | body (success : Bool) (job_id : String) (detail message : Option String) : SubmitResp

/-- Embedding of `handleProcessVideo` (`App.tsx`, lines 135-187):
clear previous error/result/status, validate (empty after trim, then
URL pattern, then backend availability) — each validation failure
returns synchronously with an error message and no network call —
otherwise issue the one submission request and apply its outcome. The
second component counts the network calls issued. -/
def handleProcessVideo (s : AppState) (resp : SubmitResp) : AppState × Nat :=
  let s0 : AppState := { s with error := "", result := none, jobStatus := none }
  if jsTrim s.youtubeUrl = "" then
    ({ s0 with error := "Please enter a YouTube URL" }, 0)
  else if isValidYouTubeUrl s.youtubeUrl = false then
    ({ s0 with error := "Please enter a valid YouTube URL (e.g., https://www.youtube.com/watch?v=...)" }, 0)
  else if s.isConnected = some false then
    ({ s0 with error := "Backend server is not available. Please make sure the Python server is running on port 8001." }, 0)
  else
    let s1 : AppState := { s0 with isProcessing := true }
    match resp with
    | .transportFail =>
      ({ s1 with error := "Failed to connect to server. Please check if the backend is running.",
                 isProcessing := false }, 1)
    | .body true jid _ _ => ({ s1 with jobId := jid }, 1)
    | .body false _ d m =>
      ({ s1 with error := jsOrStr d (jsOrStr m "Failed to start processing"),
                 isProcessing := false }, 1)

/-- Outcome observed by one poll-tick continuation: a transport/JSON
failure of the status request, or a status body together with the
outcome of the nested result fetch (consulted only when the status is
"completed"). -/
inductive PollFetch where
  | transportFail : PollFetch
  | ok (st : JobStatusV) (resultFetch : Except Unit ResultPayload) : PollFetch

/-- Embedding of the poll-tick continuation (`App.tsx`, lines 68-112):
`setJobStatus` is applied unconditionally; "completed" stops processing
and fetches the result (storing it, or a retrieval error message);
"failed" stops processing and surfaces the server message (or a
generic one — note `||`, so an empty server message is replaced); a
transport failure stops processing with a connectivity error. The
continuation runs whenever its response arrives — the source has no
staleness guard comparing the response to the current job. -/
def applyPollTick (s : AppState) (o : PollFetch) : AppState :=
  match o with
  | .transportFail =>
    { s with error := "Lost connection to server. Please check if backend is running.",
             isProcessing := false }
  | .ok st rf =>
    let s1 := { s with jobStatus := some st }
    if st.status = "completed" then
      let s2 := { s1 with isProcessing := false }
      match rf with
      | .ok r => { s2 with result := some r }
      | .error _ => { s2 with error := "Failed to get processing results. Please try again." }
    else if st.status = "failed" then
      { s1 with isProcessing := false,
                error := jsOrStr st.error_message "Processing failed unexpectedly" }
    else s1

/-- Embedding of `resetForm` (`App.tsx`, lines 190-198). -/
def resetForm (s : AppState) : AppState :=
  { s with youtubeUrl := "", jobId := "", jobStatus := none, result := none,
           error := "", isProcessing := false }

/-- The guard of the polling effect (`App.tsx`, line 65):
`jobId && isProcessing` — a new poll interval exists only while both
are truthy. -/
def pollingActive (s : AppState) : Bool :=
  (s.jobId != "") && s.isProcessing

/-- A concrete idle state for the C4 counterexample. -/
def idleAppState : AppState :=
  { youtubeUrl := "", isProcessing := false, jobId := "", jobStatus := none,
    result := none, error := "", isConnected := none }

/-- A stale in-flight poll response arriving after `reset()`. -/
def staleStatus : JobStatusV :=
  { job_id := "job0", status := "processing", progress := 40,
    current_step := "Analyzing video", error_message := none,
    estimated_remaining := none, ai_features_enabled := none }

/-- The comparator passed to `Array.prototype.sort` in both
recommendation views, `(a, b) => getViralPotential(b) -
getViralPotential(a)`: `a` may precede `b` exactly when
`getViralPotential b ≤ getViralPotential a` (descending). JS sort is
required to be stable (ES2019), modelled by the stable
`List.mergeSort`. -/
def vpLe (a b : ClipData) : Bool :=
  decide (getViralPotential b ≤ getViralPotential a)

/-- The in-place sort performed on the clips array by the Highest
Engagement list (`VideoPreview.tsx`, line 674). -/
def sortClipsByVp (l : List ClipData) : List ClipData :=
  l.mergeSort vpLe

/-- The "Best for TikTok/Shorts" view (`VideoPreview.tsx`,
lines 647-650): filter `duration <= 60`, sort descending by viral
potential, take the top 2. -/
def bestForShortsView (l : List ClipData) : List ClipData :=
  ((l.filter (fun c => decide (c.duration ≤ 60))).mergeSort vpLe).take 2

/-- The "Highest Engagement Potential" view (`VideoPreview.tsx`,
lines 673-675): sort the full set descending by viral potential, take
the top 2. -/
def highestEngagementView (l : List ClipData) : List ClipData :=
  (l.mergeSort vpLe).take 2

/-- One render of the short-form list together with the state of the
caller-owned `clips` array afterwards: `filter` copies, so the array is
untouched. -/
def bestForShortsRender (l : List ClipData) : List ClipData × List ClipData :=
  (bestForShortsView l, l)

/-- One render of the highest-engagement list together with the state
of the caller-owned `clips` array afterwards: `clips.sort(...)` sorts
the array itself in place, so the array is left in sorted order. -/
def highestEngagementRender (l : List ClipData) : List ClipData × List ClipData :=
  ((l.mergeSort vpLe).take 2, l.mergeSort vpLe)

/-- The descending sort with each clip paired with its original
position: the standard realization of the stable sort, used to state
the tie-breaking order. -/
def rankedIdx (l : List ClipData) : List (Nat × ClipData) :=
  (l.enum).mergeSort (List.enumLE vpLe)

/-- `setDownloadingClips(prev => new Set(prev).add(clip.clip_id))`
(`VideoPreview.tsx`, line 109): functional insertion of the clip id
into the currently-exporting set. -/
def addDownloading (s : Finset String) (cid : String) : Finset String :=
  insert cid s

/-- The `finally` updater (`VideoPreview.tsx`, lines 149-153): copy the
set and delete the clip id. -/
def removeDownloading (s : Finset String) (cid : String) : Finset String :=
  s.erase cid

/-- How one single-clip export settles: server success, unsuccessful
body (thrown), or a transport error (thrown). -/
inductive DlOutcome where
  | ok : DlOutcome
  | serverFail : DlOutcome
  | threw : DlOutcome

/-- The set update performed when `downloadClip` settles: the
`finally` block runs the same removal in every one of the three
outcomes. -/
def downloadClipSettle (o : DlOutcome) (s : Finset String) (cid : String) : Finset String :=
  match o with
  | .ok => removeDownloading s cid
  | .serverFail => removeDownloading s cid
  | .threw => removeDownloading s cid

/-- Claim C1 (counterexample): for a clip whose analysis supplies
`motion_score = 0`, the code substitutes the default `0.5` (JS `||`
treats `0` as absent), so `getViralPotential` is `0.75`, not the `0.6`
the claimed formula (`??` semantics) yields. -/
theorem getViralPotential_zero_motion_cex :
    getViralPotential clipZeroMotion ≠ viralPotentialClaimed clipZeroMotion
      ∧ getViralPotential clipZeroMotion = 0.75
      ∧ viralPotentialClaimed clipZeroMotion = 0.6 := by
  refine ⟨?_, ?_, ?_⟩ <;>
  · simp [getViralPotential, viralPotentialClaimed, clipZeroMotion,
      motionScoreOf, visualScoreOf, jsOrNum]
    norm_num

/-- Claim C1 (amended): `getViralPotential(clip)` equals
`min(1.0, confidence + motionTerm + visualTerm + typeTerm)` where the
motion term is `0.3 ×` the supplied motion score when it is nonzero and
`0.3 × 0.5` when it is absent **or supplied as 0**, the visual term is
`0.2 ×` the supplied visual score when nonzero and `0.2 × 0.5` when
absent or `0`, and the type term is `0.2` for "High Action" else `0.1`.
Moreover, whenever neither supplied score is `0` the code agrees with
the formula originally claimed. -/
theorem getViralPotential_amended :
    (∀ c : ClipData, getViralPotential c =
      min 1.0 (c.confidence + motionTermAmended c + visualTermAmended c + typeTermOf c))
    ∧ ∀ c : ClipData, motionScoreOf c ≠ some 0 → visualScoreOf c ≠ some 0 →
        getViralPotential c = viralPotentialClaimed c := by
  constructor
  · intro c
    unfold getViralPotential motionTermAmended visualTermAmended typeTermOf jsOrNum
    cases hm : motionScoreOf c <;> cases hv : visualScoreOf c <;> simp
  · intro c hm hv
    unfold getViralPotential viralPotentialClaimed jsOrNum
    cases hmc : motionScoreOf c with
    | none => cases hvc : visualScoreOf c with
      | none => simp
      | some v =>
        have hv0 : ¬ v = 0 := by intro h; exact hv (by rw [hvc, h])
        simp [hv0]
    | some m =>
      have hm0 : ¬ m = 0 := by intro h; exact hm (by rw [hmc, h])
      cases hvc : visualScoreOf c with
      | none => simp [hm0]
      | some v =>
        have hv0 : ¬ v = 0 := by intro h; exact hv (by rw [hvc, h])
        simp [hm0, hv0]

/-- Witness for the amended C1 theorem at a clip with nonzero supplied
scores. -/
theorem getViralPotential_amended_witness :
    motionScoreOf clipNonzeroScores ≠ some 0
      ∧ visualScoreOf clipNonzeroScores ≠ some 0
      ∧ getViralPotential clipNonzeroScores = viralPotentialClaimed clipNonzeroScores := by
  refine ⟨?_, ?_, getViralPotential_amended.2 clipNonzeroScores ?_ ?_⟩ <;>
    norm_num [motionScoreOf, visualScoreOf, clipNonzeroScores, Option.bind]

/-- Claim C5: for every clip whose confidence and supplied motion and
visual scores lie in `[0,1]`, the viral potential lies in `[0,1]`; and
at the boundary clip (confidence 1, motion 1, visual 1, "High Action")
the score is exactly `1`, clamped rather than `1.2` (the raw sum there
is `1.7`). -/
theorem getViralPotential_unit_interval :
    (∀ c : ClipData, 0 ≤ c.confidence → c.confidence ≤ 1 →
      (∀ m, motionScoreOf c = some m → 0 ≤ m ∧ m ≤ 1) →
      (∀ v, visualScoreOf c = some v → 0 ≤ v ∧ v ≤ 1) →
      0 ≤ getViralPotential c ∧ getViralPotential c ≤ 1)
    ∧ getViralPotential clipBoundary = 1 := by
  constructor
  · intro c hc0 _hc1 hm hv
    have hrep : getViralPotential c =
        min 1.0 (c.confidence + (jsOrNum (motionScoreOf c) 0.5) * 0.3
          + (jsOrNum (visualScoreOf c) 0.5) * 0.2
          + (if c.type = "High Action" then (0.2 : ℚ) else 0.1)) := rfl
    have hmB : 0 ≤ jsOrNum (motionScoreOf c) 0.5 := by
      unfold jsOrNum
      cases hmc : motionScoreOf c with
      | none => norm_num
      | some m =>
        by_cases h0 : m = 0
        · norm_num [h0]
        · simpa [h0] using (hm m hmc).1
    have hvB : 0 ≤ jsOrNum (visualScoreOf c) 0.5 := by
      unfold jsOrNum
      cases hvc : visualScoreOf c with
      | none => norm_num
      | some v =>
        by_cases h0 : v = 0
        · norm_num [h0]
        · simpa [h0] using (hv v hvc).1
    rw [hrep]
    constructor
    · have ht : (0:ℚ) ≤ (if c.type = "High Action" then (0.2:ℚ) else 0.1) := by
        split <;> norm_num
      refine le_min (by norm_num) ?_
      have h1 : 0 ≤ (jsOrNum (motionScoreOf c) 0.5) * 0.3 := by positivity
      have h2 : 0 ≤ (jsOrNum (visualScoreOf c) 0.5) * 0.2 := by positivity
      linarith
    · exact le_trans (min_le_left (1.0 : ℚ) _) (by norm_num)
  · simp [getViralPotential, clipBoundary, motionScoreOf, visualScoreOf, jsOrNum]
    norm_num

/-- Witness for C5 at a concrete in-range clip. -/
theorem getViralPotential_unit_interval_witness :
    0 ≤ getViralPotential clipZeroMotion ∧ getViralPotential clipZeroMotion ≤ 1 := by
  refine getViralPotential_unit_interval.1 clipZeroMotion (by norm_num [clipZeroMotion])
    (by norm_num [clipZeroMotion]) ?_ ?_ <;>
  · intro x hx
    simp only [motionScoreOf, visualScoreOf, clipZeroMotion, Option.bind] at hx
    simp only [Option.some.injEq] at hx
    subst hx
    norm_num

/-- Claim C9 (counterexample): a clip starting at second `0` does not
get the `&t=0s` start-offset parameter the claim promises for every
given start time; the source tests `startTime ?`, `0` is falsy, so the
bare watch URL is produced. -/
theorem getYouTubeLink_zero_start_cex :
    getYouTubeLink (some "dQw4w9WgXcQ") "urlOriginal" (some 0) =
      "https://www.youtube.com/watch?v=dQw4w9WgXcQ"
    ∧ getYouTubeLink (some "dQw4w9WgXcQ") "urlOriginal" (some 0) ≠
      "https://www.youtube.com/watch?v=dQw4w9WgXcQ&t=0s" := by
  constructor
  · rfl
  · decide

/-- Claim C9 (amended): when the video id is known, a *nonzero* start
time yields the base watch URL plus the `t` query parameter holding the
start time truncated (floored) to whole seconds; a start time of `0`,
like an absent one, yields the base watch URL alone (the source treats
the falsy `0` as absent); with no video id, the raw input URL is
returned. -/
theorem getYouTubeLink_amended :
    (∀ (vid url : String) (st : ℚ), st ≠ 0 →
      getYouTubeLink (some vid) url (some st) =
        "https://www.youtube.com/watch?v=" ++ vid ++ "&t=" ++ toString (Rat.floor st) ++ "s")
    ∧ (∀ vid url : String, getYouTubeLink (some vid) url (some 0) =
        "https://www.youtube.com/watch?v=" ++ vid)
    ∧ (∀ vid url : String, getYouTubeLink (some vid) url none =
        "https://www.youtube.com/watch?v=" ++ vid)
    ∧ (∀ (url : String) (st : Option ℚ), getYouTubeLink none url st = url) := by
  refine ⟨?_, ?_, ?_, ?_⟩
  · intro vid url st hst
    simp [getYouTubeLink, hst, String.append_assoc]
  · intro vid url
    simp [getYouTubeLink]
  · intro vid url
    rfl
  · intro url st
    rfl

/-- Witness for the amended C9 theorem: a start time of `7.5` seconds
is floored to the whole-second offset `t=7s`. -/
theorem getYouTubeLink_amended_witness :
    mkRat 15 2 ≠ 0
    ∧ getYouTubeLink (some "abc") "u" (some (mkRat 15 2)) =
      "https://www.youtube.com/watch?v=abc&t=7s" := by
  constructor
  · decide
  · rw [getYouTubeLink_amended.1 "abc" "u" (mkRat 15 2) (by decide)]
    decide

/-- `Rat.floor` agrees with the `⌊⌋` of the `FloorRing` instance
(definitional). -/
theorem ratFloor_eq_intFloor (q : ℚ) : Rat.floor q = ⌊q⌋ := rfl

/-- Evaluation of `formatTime` at a concrete nonnegative time. -/
theorem formatTime_eval (q : ℚ) (m s : ℤ) (hq : ¬ q / 60 < 0)
    (h1 : ⌊q / 60⌋ = m) (h2 : ⌊q - 60 * (m : ℚ)⌋ = s) :
    formatTime q = toString m ++ ":" ++ padTwo (toString s) := by
  have e : formatTime q = toString (Rat.floor (q / 60)) ++ ":"
      ++ padTwo (toString (Rat.floor (jsRem q 60))) := rfl
  have hrem : jsRem q 60 = q - 60 * (m : ℚ) := by
    unfold jsRem jsTrunc
    rw [if_neg hq, ratFloor_eq_intFloor, h1]
  rw [e, hrem, ratFloor_eq_intFloor, ratFloor_eq_intFloor, h1, h2]

theorem formatTime_90 : formatTime (90 : ℚ) = "1:30" := by
  rw [formatTime_eval (90 : ℚ) 1 30 (by norm_num) (by norm_num) (by norm_num)]
  decide

theorem formatTime_120 : formatTime (120 : ℚ) = "2:00" := by
  rw [formatTime_eval (120 : ℚ) 2 0 (by norm_num) (by norm_num) (by norm_num)]
  decide

theorem formatTime_150 : formatTime (150 : ℚ) = "2:30" := by
  rw [formatTime_eval (150 : ℚ) 2 30 (by norm_num) (by norm_num) (by norm_num)]
  decide

theorem formatTime_195 : formatTime (195 : ℚ) = "3:15" := by
  rw [formatTime_eval (195 : ℚ) 3 15 (by norm_num) (by norm_num) (by norm_num)]
  decide

theorem formatTime_225 : formatTime (225 : ℚ) = "3:45" := by
  rw [formatTime_eval (225 : ℚ) 3 45 (by norm_num) (by norm_num) (by norm_num)]
  decide

theorem formatTime_260 : formatTime (260 : ℚ) = "4:20" := by
  rw [formatTime_eval (260 : ℚ) 4 20 (by norm_num) (by norm_num) (by norm_num)]
  decide

set_option maxRecDepth 10000 in
/-- The fallback text of the C3 counterexample inputs, evaluated. -/
theorem fallbackText_cex_eval :
    fallbackText cexVideoId "u" cexClips =
      "1. Grand opening sequence\n   ⏰ 1:30 - 2:00\n   🔗 https://www.youtube.com/watch?v=dQw4w9WgXcQ&t=90s\n\n2. Mid-video turning point\n   ⏰ 2:30 - 3:15\n   🔗 https://www.youtube.com/watch?v=dQw4w9WgXcQ&t=150s\n\n3. Closing remarks and outro\n   ⏰ 3:45 - 4:20\n   🔗 https://www.youtube.com/watch?v=dQw4w9WgXcQ&t=225s\n" := by
  unfold fallbackText cexClips cexVideoId fallbackEntry
  simp only [List.enum, List.enumFrom, List.map, formatTime_90, formatTime_120,
    formatTime_150, formatTime_195, formatTime_225, formatTime_260]
  decide

set_option maxRecDepth 10000 in
/-- Claim C3 (counterexample): with the concrete three-clip set whose
fallback text has 302 characters, a failing remote format request
followed by a failing clipboard write surfaces only the first 200
characters of the fallback plus an ellipsis — a truncated value, not
the full fallback text (the surfaced message is even shorter than the
fallback itself, so it cannot contain it). -/
theorem copyTimestamps_truncation_cex :
    200 < (fallbackText cexVideoId "u" cexClips).data.length
    ∧ (copyTimestampsRun cexVideoId "u" cexClips .transportFail false false).surfaced
        = CopySurface.manual ("❌ Copy failed. Please copy manually:\n\n"
            ++ jsSlice0 (fallbackText cexVideoId "u" cexClips) 200 ++ "...")
    ∧ jsSlice0 (fallbackText cexVideoId "u" cexClips) 200
        ≠ fallbackText cexVideoId "u" cexClips
    ∧ ("❌ Copy failed. Please copy manually:\n\n"
        ++ jsSlice0 (fallbackText cexVideoId "u" cexClips) 200 ++ "...").data.length
        < (fallbackText cexVideoId "u" cexClips).data.length := by
  refine ⟨?_, rfl, ?_, ?_⟩
  · rw [fallbackText_cex_eval]
    decide
  · rw [fallbackText_cex_eval]
    decide
  · rw [fallbackText_cex_eval]
    decide

/-- Claim C3 (amended): when the remote formatting request fails (at
transport level or with an unsuccessful body) the full locally
formatted fallback text is passed to the clipboard write; if that write
succeeds the caller gets the full fallback on the clipboard, but if it
also fails the value surfaced to the caller is only the first 200
characters of the fallback text followed by an ellipsis — truncated
whenever the fallback exceeds 200 characters. -/
theorem copyTimestamps_amended :
    ∀ (v url : String) (clips : List ClipData) (wr : Bool) (t : String) (n : Nat),
    copyTimestampsRun (some v) url clips .transportFail wr false =
      ⟨[fallbackText (some v) url clips],
        .manual ("❌ Copy failed. Please copy manually:\n\n"
          ++ jsSlice0 (fallbackText (some v) url clips) 200 ++ "...")⟩
    ∧ copyTimestampsRun (some v) url clips (.body false t n) wr false =
      ⟨[fallbackText (some v) url clips],
        .manual ("❌ Copy failed. Please copy manually:\n\n"
          ++ jsSlice0 (fallbackText (some v) url clips) 200 ++ "...")⟩
    ∧ copyTimestampsRun (some v) url clips .transportFail wr true =
      ⟨[fallbackText (some v) url clips],
        .copiedFallback (fallbackText (some v) url clips)⟩ := by
  intro v url clips wr t n
  exact ⟨rfl, rfl, rfl⟩

/-- Claim C7: when the batch export-descriptor request fails — at the
transport level or with an unsuccessful response body — zero links are
opened (the staggered open step is all-or-nothing) and exactly one
batch-level error alert is surfaced; and whatever the guard state, no
failing response ever opens a link. -/
theorem downloadAllClips_all_or_nothing :
    ∀ (v : String) (c : ClipData) (cs : List ClipData)
      (urls : List String) (n : Nat) (tips : List String),
      (downloadAllClipsRun (some v) (c :: cs) .transportFail).opened = []
      ∧ (downloadAllClipsRun (some v) (c :: cs) .transportFail).batchErrorAlerts = 1
      ∧ (downloadAllClipsRun (some v) (c :: cs) (.body false urls n tips)).opened = []
      ∧ (downloadAllClipsRun (some v) (c :: cs) (.body false urls n tips)).batchErrorAlerts = 1
      ∧ ∀ (vid : Option String) (clips : List ClipData),
          (downloadAllClipsRun vid clips .transportFail).opened = []
          ∧ (downloadAllClipsRun vid clips (.body false urls n tips)).opened = [] := by
  intro v c cs urls n tips
  refine ⟨rfl, rfl, rfl, rfl, ?_⟩
  intro vid clips
  constructor
  · unfold downloadAllClipsRun
    split <;> rfl
  · unfold downloadAllClipsRun
    split <;> rfl

/-- Claim C8: a source URL that fails the validity check never issues a
network call: `handleProcessVideo` returns synchronously with one of
the two validation error messages, leaving `isProcessing` and the job
id untouched. -/
theorem handleProcessVideo_validation :
    ∀ (s : AppState) (resp : SubmitResp),
      isValidYouTubeUrl s.youtubeUrl = false →
      (handleProcessVideo s resp).2 = 0
      ∧ ((handleProcessVideo s resp).1.error = "Please enter a YouTube URL"
        ∨ (handleProcessVideo s resp).1.error
            = "Please enter a valid YouTube URL (e.g., https://www.youtube.com/watch?v=...)")
      ∧ (handleProcessVideo s resp).1.isProcessing = s.isProcessing
      ∧ (handleProcessVideo s resp).1.jobId = s.jobId := by
  intro s resp hinv
  unfold handleProcessVideo
  by_cases htrim : jsTrim s.youtubeUrl = ""
  · simp [htrim]
  · simp [htrim, hinv]

/-- Witness for C8 at the concrete invalid URL "not-a-url". -/
theorem handleProcessVideo_validation_witness :
    isValidYouTubeUrl "not-a-url" = false
    ∧ (handleProcessVideo { idleAppState with youtubeUrl := "not-a-url" }
        (SubmitResp.body true "j1" none none)).2 = 0 := by
  refine ⟨by decide, (handleProcessVideo_validation
    { idleAppState with youtubeUrl := "not-a-url" }
    (SubmitResp.body true "j1" none none) (by decide)).1⟩

/-- The poll-tick continuation never changes the stored job id. -/
theorem applyPollTick_jobId (s : AppState) (o : PollFetch) :
    (applyPollTick s o).jobId = s.jobId := by
  cases o with
  | transportFail => rfl
  | ok st rf =>
    simp only [applyPollTick]
    split
    · cases rf <;> rfl
    · split <;> rfl

/-- The poll-tick continuation never changes the stored URL. -/
theorem applyPollTick_youtubeUrl (s : AppState) (o : PollFetch) :
    (applyPollTick s o).youtubeUrl = s.youtubeUrl := by
  cases o with
  | transportFail => rfl
  | ok st rf =>
    simp only [applyPollTick]
    split
    · cases rf <;> rfl
    · split <;> rfl

/-- If processing is already stopped, no poll-tick outcome restarts
it. -/
theorem applyPollTick_isProcessing (s : AppState) (o : PollFetch)
    (h : s.isProcessing = false) : (applyPollTick s o).isProcessing = false := by
  cases o with
  | transportFail => rfl
  | ok st rf =>
    simp only [applyPollTick]
    split
    · cases rf <;> rfl
    · split
      · rfl
      · exact h

/-- A poll response always overwrites the stored job status. -/
theorem applyPollTick_jobStatus (s : AppState) (st : JobStatusV)
    (rf : Except Unit ResultPayload) :
    (applyPollTick s (.ok st rf)).jobStatus = some st := by
  simp only [applyPollTick]
  split
  · cases rf <;> rfl
  · split <;> rfl

/-- Claim C4 (counterexample): a poll response that was in flight when
`reset()` ran is applied to the now-idle controller — it overwrites
`jobStatus` (from `none` to the stale status), so the idle state is
mutated, contrary to the claim that late responses are dropped. -/
theorem latePoll_mutates_idle_cex :
    (applyPollTick (resetForm idleAppState)
      (.ok staleStatus (.error ()))).jobStatus = some staleStatus
    ∧ (resetForm idleAppState).jobStatus = none := by
  exact ⟨rfl, rfl⟩

/-- Claim C4 (amended): `reset()` does end the polling loop — its
effect guard `jobId && isProcessing` is falsy afterwards, so no new
tick is scheduled — but a response already in flight IS applied to the
idle state when it arrives (there is no staleness guard): it
unconditionally overwrites `jobStatus` (and can set `error` or
`result`). The applied response still cannot reactivate the job: the
job id stays empty, `isProcessing` stays false, and the polling guard
stays inactive. -/
theorem latePoll_amended :
    ∀ (s : AppState) (o : PollFetch),
      pollingActive (resetForm s) = false
      ∧ (applyPollTick (resetForm s) o).jobId = ""
      ∧ (applyPollTick (resetForm s) o).isProcessing = false
      ∧ pollingActive (applyPollTick (resetForm s) o) = false
      ∧ ∀ (st : JobStatusV) (rf : Except Unit ResultPayload),
          (applyPollTick (resetForm s) (.ok st rf)).jobStatus = some st := by
  intro s o
  have hjob : (applyPollTick (resetForm s) o).jobId = "" := applyPollTick_jobId _ _
  refine ⟨rfl, hjob, applyPollTick_isProcessing _ _ rfl, ?_, fun st rf => applyPollTick_jobStatus _ _ _⟩
  unfold pollingActive
  rw [hjob]
  rfl

/-- Claim C10: a single-clip export inserts the clip id into the
currently-exporting set before the request, and the `finally` block
removes it again whatever the outcome (success, unsuccessful body, or
thrown error); afterwards the id is absent, and neither the insertion
nor the removal changes the membership of any other id. -/
theorem downloadClip_set_invariant :
    ∀ (s0 s1 : Finset String) (cid : String) (o : DlOutcome),
      cid ∈ addDownloading s0 cid
      ∧ downloadClipSettle o s1 cid = s1.erase cid
      ∧ cid ∉ downloadClipSettle o s1 cid
      ∧ ∀ x : String, x ≠ cid →
          ((x ∈ addDownloading s0 cid ↔ x ∈ s0)
            ∧ (x ∈ downloadClipSettle o s1 cid ↔ x ∈ s1)) := by
  intro s0 s1 cid o
  have hsettle : downloadClipSettle o s1 cid = s1.erase cid := by
    cases o <;> rfl
  refine ⟨Finset.mem_insert_self cid s0, hsettle, ?_, ?_⟩
  · rw [hsettle]
    exact Finset.not_mem_erase cid s1
  · intro x hx
    constructor
    · simp [addDownloading, Finset.mem_insert, hx]
    · rw [hsettle]
      simp [Finset.mem_erase, hx]

/-- Witness for C10 at concrete sets and ids. -/
theorem downloadClip_set_invariant_witness :
    ("b" : String) ≠ "a"
    ∧ (("b" : String) ∈ addDownloading {"b"} "a" ↔ ("b" : String) ∈ ({"b"} : Finset String))
    ∧ ("a" : String) ∉ downloadClipSettle .ok {"a", "b"} "a" := by
  refine ⟨by decide,
    ((downloadClip_set_invariant {"b"} {"a", "b"} "a" .ok).2.2.2 "b" (by decide)).1,
    (downloadClip_set_invariant {"b"} {"a", "b"} "a" .ok).2.2.1⟩

/-- The sort comparator is total. -/
theorem vpLe_total (a b : ClipData) : vpLe a b || vpLe b a := by
  unfold vpLe
  rcases le_total (getViralPotential b) (getViralPotential a) with h | h <;> simp [h]

/-- The sort comparator is transitive. -/
theorem vpLe_trans (a b c : ClipData) : vpLe a b → vpLe b c → vpLe a c := by
  unfold vpLe
  intro h1 h2
  rw [decide_eq_true_eq] at h1 h2 ⊢
  exact le_trans h2 h1

/-- Viral potential of the zero-motion clip. -/
theorem vp_clipZeroMotion_eval : getViralPotential clipZeroMotion = 0.75 := by
  simp [getViralPotential, clipZeroMotion, motionScoreOf, visualScoreOf, jsOrNum]
  norm_num

/-- Viral potential of the nonzero-score clip (clamped to 1). -/
theorem vp_clipNonzeroScores_eval : getViralPotential clipNonzeroScores = 1 := by
  simp [getViralPotential, clipNonzeroScores, motionScoreOf, visualScoreOf, jsOrNum]
  norm_num

/-- The comparator puts the nonzero-score clip strictly first. -/
theorem vpLe_cex_false : vpLe clipZeroMotion clipNonzeroScores = false := by
  unfold vpLe
  rw [vp_clipZeroMotion_eval, vp_clipNonzeroScores_eval]
  simp only [decide_eq_false_iff_not]
  norm_num

/-- `mergeSort` on a two-element list. -/
theorem mergeSort_pair {α : Type} (le : α → α → Bool) (a b : α) :
    [a, b].mergeSort le = if le a b then [a, b] else [b, a] := by
  rw [List.mergeSort]
  simp [List.splitInTwo_fst, List.splitInTwo_snd, List.merge]

/-- Claim C2 (counterexample): computing the Highest Engagement view on
the two-clip array leaves the caller's array reordered —
`clips.sort(...)` sorts in place, so afterwards the array is
`[high, low]`, not the original `[low, high]`. -/
theorem selector_mutation_cex :
    (highestEngagementRender [clipZeroMotion, clipNonzeroScores]).2
      ≠ [clipZeroMotion, clipNonzeroScores] := by
  have h2 : (highestEngagementRender [clipZeroMotion, clipNonzeroScores]).2
      = [clipNonzeroScores, clipZeroMotion] := by
    show [clipZeroMotion, clipNonzeroScores].mergeSort vpLe = _
    rw [mergeSort_pair, vpLe_cex_false]
    simp
  rw [h2]
  intro heq
  have h1 : clipNonzeroScores = clipZeroMotion := by
    injection heq
  have h3 := congrArg ClipData.clip_id h1
  simp [clipNonzeroScores, clipZeroMotion] at h3

/-- Claim C2 (amended): the short-form-fit view never mutates the
caller's array (`filter` copies before sorting); the highest-engagement
view sorts the caller's array in place, so afterwards the array holds
the same elements (a permutation of the original) but in descending
viral-potential order, not the original server insertion order. -/
theorem selector_mutation_amended :
    ∀ l : List ClipData,
      (bestForShortsRender l).2 = l
      ∧ ((highestEngagementRender l).2).Perm l
      ∧ (highestEngagementRender l).2 = sortClipsByVp l := by
  intro l
  exact ⟨rfl, List.mergeSort_perm l vpLe, rfl⟩

/-- The indexed ranking is sorted for the index-extended comparator. -/
theorem rankedIdx_pairwise (m : List ClipData) :
    (rankedIdx m).Pairwise (fun p q => List.enumLE vpLe p q) :=
  List.sorted_mergeSort (List.enumLE_trans vpLe_trans) (List.enumLE_total vpLe_total) _

/-- The original positions in the indexed ranking are distinct. -/
theorem rankedIdx_fst_nodup (m : List ClipData) :
    ((rankedIdx m).map Prod.fst).Nodup := by
  have hperm : List.Perm (rankedIdx m) m.enum := List.mergeSort_perm _ _
  have h1 : (m.enum.map Prod.fst).Nodup := by
    rw [List.enum_map_fst]
    exact List.nodup_range _
  exact ((hperm.map Prod.fst).nodup_iff).mpr h1

/-- Pairwise distinctness of the original positions. -/
theorem rankedIdx_fst_ne (m : List ClipData) :
    (rankedIdx m).Pairwise (fun p q => p.1 ≠ q.1) := by
  have h : ((rankedIdx m).map Prod.fst).Pairwise (fun a b => a ≠ b) :=
    rankedIdx_fst_nodup m
  rw [List.pairwise_map] at h
  exact h

/-- Stability: clips with equal viral potential appear in the ranking
in their original sequence order. -/
theorem rankedIdx_ties (m : List ClipData) :
    (rankedIdx m).Pairwise
      (fun p q => getViralPotential p.2 = getViralPotential q.2 → p.1 < q.1) := by
  have h := (rankedIdx_pairwise m).and (rankedIdx_fst_ne m)
  refine h.imp ?_
  rintro p q ⟨hle, hne⟩ heq
  have hpq : vpLe p.2 q.2 = true := by
    unfold vpLe
    rw [decide_eq_true_eq, heq]
  have hqp : vpLe q.2 p.2 = true := by
    unfold vpLe
    rw [decide_eq_true_eq, heq]
  simp only [List.enumLE, hpq, hqp, if_true, decide_eq_true_eq] at hle
  omega

/-- Projecting the indexed ranking gives the plain sorted list. -/
theorem rankedIdx_map_snd (m : List ClipData) :
    (rankedIdx m).map Prod.snd = m.mergeSort vpLe :=
  List.mergeSort_enum

/-- The sorted clip list is pairwise descending in viral potential. -/
theorem sortedView_pairwise (m : List ClipData) :
    (m.mergeSort vpLe).Pairwise
      (fun a b => getViralPotential b ≤ getViralPotential a) := by
  have h := List.sorted_mergeSort vpLe_trans vpLe_total m
  exact h.imp (fun hab => of_decide_eq_true hab)

/-- Claim C6: each recommendation view returns `min 2 n` items (at most
2, fewer only when the filtered/source set has fewer eligible clips);
the returned items are in descending order of viral potential; and in
the index-carrying form of the same stable sort, items with equal viral
potential keep their original sequence order (strictly increasing
original positions). -/
theorem recommendation_views_top2 :
    ∀ l : List ClipData,
      (bestForShortsView l).length
          = min 2 (l.filter (fun c => decide (c.duration ≤ 60))).length
      ∧ (highestEngagementView l).length = min 2 l.length
      ∧ (bestForShortsView l).Pairwise
          (fun a b => getViralPotential b ≤ getViralPotential a)
      ∧ (highestEngagementView l).Pairwise
          (fun a b => getViralPotential b ≤ getViralPotential a)
      ∧ highestEngagementView l = ((rankedIdx l).take 2).map Prod.snd
      ∧ ((rankedIdx l).take 2).Pairwise
          (fun p q => getViralPotential p.2 = getViralPotential q.2 → p.1 < q.1)
      ∧ bestForShortsView l
          = ((rankedIdx (l.filter (fun c => decide (c.duration ≤ 60)))).take 2).map Prod.snd
      ∧ ((rankedIdx (l.filter (fun c => decide (c.duration ≤ 60)))).take 2).Pairwise
          (fun p q => getViralPotential p.2 = getViralPotential q.2 → p.1 < q.1) := by
  intro l
  refine ⟨?_, ?_, ?_, ?_, ?_, ?_, ?_, ?_⟩
  · show (((l.filter _).mergeSort vpLe).take 2).length = _
    rw [List.length_take, List.length_mergeSort]
  · show ((l.mergeSort vpLe).take 2).length = _
    rw [List.length_take, List.length_mergeSort]
  · exact List.Pairwise.sublist (List.take_sublist _ _) (sortedView_pairwise _)
  · exact List.Pairwise.sublist (List.take_sublist _ _) (sortedView_pairwise _)
  · show (l.mergeSort vpLe).take 2 = _
    rw [← rankedIdx_map_snd l, List.map_take]
  · exact List.Pairwise.sublist (List.take_sublist _ _) (rankedIdx_ties _)
  · show ((l.filter _).mergeSort vpLe).take 2 = _
    rw [← rankedIdx_map_snd, List.map_take]
  · exact List.Pairwise.sublist (List.take_sublist _ _) (rankedIdx_ties _)
